import Mathlib

set_option autoImplicit false

/-!
Verification development for the launch dispatch module
(src/wandb/sdk/launch/__init__.py).  The Python module is shallowly
embedded: Python dicts become association lists (dict keys are unique, an
assignment overwrites an existing key in place and appends a missing key
at the end), exceptions become an explicit error type threaded through an
Except result, and side effects (log lines, cancel calls, backend lookups
and dispatches) are recorded in explicit event traces.
-/

namespace Launch

/-- Python values that appear in the run configuration: strings, booleans,
a docker-argument mapping (string to string), and None. -/
inductive Value where
  | vStr (s : String)
  | vBool (b : Bool)
  | vDict (d : List (String × String))
  | vNone
deriving DecidableEq, Repr

/-- A Python dict from string keys to strings (docker arguments, docker env). -/
abbrev StrDict := List (String × String)

/-- A Python dict from string keys to configuration values (runner_config). -/
abbrev Dict := List (String × Value)

/-- Lookup in an association list; first matching key wins (keys are
unique in a dict, so this is the dict lookup). -/
def assocGet {α : Type} (d : List (String × α)) (k : String) : Option α :=
  match d with
  | [] => none
  | p :: rest => if p.1 == k then some p.2 else assocGet rest k

/-- Python dict assignment: an existing key is overwritten in place
(keeping its position), a missing key is appended at the end. -/
def assocSet {α : Type} (d : List (String × α)) (k : String) (v : α) :
    List (String × α) :=
  match d with
  | [] => [(k, v)]
  | p :: rest => if p.1 == k then (k, v) :: rest else p :: assocSet rest k v

/-- Setting a key then reading it back yields the new value. -/
theorem assocGet_assocSet_self {α : Type} (d : List (String × α)) (k : String) (v : α) :
    assocGet (assocSet d k v) k = some v := by
  induction d with
  | nil => simp [assocSet, assocGet]
  | cons p rest ih =>
    by_cases h : p.1 = k
    · simp [assocSet, assocGet, h]
    · simp [assocSet, assocGet, h, ih]

/-- Setting one key leaves the value at every other key unchanged. -/
theorem assocGet_assocSet_ne {α : Type} (d : List (String × α)) (k k' : String) (v : α)
    (h : k' ≠ k) : assocGet (assocSet d k v) k' = assocGet d k' := by
  induction d with
  | nil => simp [assocSet, assocGet, Ne.symm h]
  | cons p rest ih =>
    by_cases hp : p.1 = k
    · simp [assocSet, assocGet, hp, Ne.symm h]
    · simp only [assocSet, beq_iff_eq, hp, if_false]
      rw [assocGet, assocGet]
      by_cases hp' : p.1 = k'
      · simp [hp']
      · simp only [beq_iff_eq, hp', if_false]
        exact ih

/-- The Python exceptions that the module raises or propagates. -/
inductive PyErr where
  | executionException (msg : String)
  | keyboardInterrupt
  | typeError
  | attributeError
deriving DecidableEq, Repr

deriving instance DecidableEq for Except

/-- Outcome of a call to SubmittedRun.wait(): either it returns a boolean
(true for success, false for failure or cancellation), or it is interrupted
by an external KeyboardInterrupt before returning. -/
inductive WaitOutcome where
  | ret (b : Bool)
  | interrupted
deriving DecidableEq, Repr

/-- The Submitted Run handle, abstracted to what the dispatcher observes:
an identifier and the behaviour of its wait() call. -/
structure SubmittedRun where
  id : Nat
  waitResult : WaitOutcome
deriving DecidableEq, Repr

/-- Observable events of the _wait_for driving sequence: logger calls and
calls to cancel() on the submitted run. -/
inductive WEvent where
  | logInfo (msg : String)
  | logError (msg : String)
  | cancelCall
deriving DecidableEq, BEq, Repr

/-- Embedding of _wait_for: wait on the submitted run; on true log success,
on false raise ExecutionException("Submitted run failed"); if the wait is
interrupted by KeyboardInterrupt, log the interruption, call cancel() on
the run, and re-raise the interrupt.  Returns the trace of events together
with the normal-or-raised outcome. -/
def _wait_for (r : SubmittedRun) : List WEvent × Except PyErr Unit :=
  match r.waitResult with
  | WaitOutcome.ret true =>
      ([WEvent.logInfo "=== Submitted run succeeded ==="], Except.ok ())
  | WaitOutcome.ret false =>
      ([], Except.error (PyErr.executionException "Submitted run failed"))
  | WaitOutcome.interrupted =>
      ([WEvent.logError "=== Submitted run interrupted, cancelling run ===",
        WEvent.cancelCall],
       Except.error PyErr.keyboardInterrupt)

/-- C1: when the wait of a synchronous run is interrupted by an external
KeyboardInterrupt before wait() returns, _wait_for logs the interruption,
calls cancel() exactly once on that run (the cancel call precedes the
re-raise, which is the last step of the sequence), and re-raises the same
KeyboardInterrupt to the caller. -/
theorem C1_interrupt_cancels_once_then_reraises (r : SubmittedRun)
    (h : r.waitResult = WaitOutcome.interrupted) :
    _wait_for r =
      ([WEvent.logError "=== Submitted run interrupted, cancelling run ===",
        WEvent.cancelCall],
       Except.error PyErr.keyboardInterrupt) ∧
    ((_wait_for r).1.count WEvent.cancelCall = 1) := by
  cases r with
  | mk i w =>
    have h' : w = WaitOutcome.interrupted := h
    subst h'
    exact ⟨rfl, rfl⟩

/-- Witness for C1 at a concrete interrupted run. -/
theorem C1_witness :
    _wait_for { id := 7, waitResult := WaitOutcome.interrupted } =
      ([WEvent.logError "=== Submitted run interrupted, cancelling run ===",
        WEvent.cancelCall],
       Except.error PyErr.keyboardInterrupt) :=
  (C1_interrupt_cancels_once_then_reraises
    { id := 7, waitResult := WaitOutcome.interrupted } rfl).1

/-- C4 counterexample: the execution error raised when wait() returns false
carries the message "Submitted run failed" (capital S), so the claim's
literal message "submitted run failed" does not match. -/
theorem C4_counterexample :
    (_wait_for { id := 0, waitResult := WaitOutcome.ret false }).2 ≠
      Except.error (PyErr.executionException "submitted run failed") := by
  decide

/-- C4 (amended): if wait() returns true the sequence logs success and
returns normally; if wait() returns false it raises an ExecutionException
with the message "Submitted run failed". -/
theorem C4_wait_result_drives_outcome (r : SubmittedRun) :
    (r.waitResult = WaitOutcome.ret true →
      _wait_for r = ([WEvent.logInfo "=== Submitted run succeeded ==="], Except.ok ())) ∧
    (r.waitResult = WaitOutcome.ret false →
      _wait_for r =
        ([], Except.error (PyErr.executionException "Submitted run failed"))) := by
  cases r with
  | mk i w =>
    constructor
    · intro h
      have h' : w = WaitOutcome.ret true := h
      subst h'
      rfl
    · intro h
      have h' : w = WaitOutcome.ret false := h
      subst h'
      rfl

/-- Witness for C4 at concrete succeeded and failed runs. -/
theorem C4_witness :
    _wait_for { id := 1, waitResult := WaitOutcome.ret true } =
      ([WEvent.logInfo "=== Submitted run succeeded ==="], Except.ok ()) ∧
    _wait_for { id := 2, waitResult := WaitOutcome.ret false } =
      ([], Except.error (PyErr.executionException "Submitted run failed")) :=
  ⟨(C4_wait_result_drives_outcome { id := 1, waitResult := WaitOutcome.ret true }).1 rfl,
   (C4_wait_result_drives_outcome { id := 2, waitResult := WaitOutcome.ret false }).2 rfl⟩

/-- Modelled from the spec: the reserved synchronous-flag key imported from
the utils module (not under src/); the spec requires only that the three
reserved keys (synchronous flag, docker arguments, storage directory) are
distinct reserved names, distinct also from the container-image key. -/
def PROJECT_SYNCHRONOUS : String := "SYNCHRONOUS"

/-- Modelled from the spec: the reserved docker-arguments key imported from
the utils module (not under src/). -/
def PROJECT_DOCKER_ARGS : String := "DOCKER_ARGS"

/-- Modelled from the spec: the reserved storage-directory key imported
from the utils module (not under src/). -/
def PROJECT_STORAGE_DIR : String := "STORAGE_DIR"

/-- The settings-provider surface of the api object consulted by _run for
default project and entity. -/
structure Api where
  settings : String → String

/-- A resolved project descriptor; what _run reads and mutates is its
docker_env mapping. -/
structure Project where
  docker_env : StrDict
deriving DecidableEq, Repr

/-- A backend implementation: its run method dispatches a project with a
run configuration and yields a SubmittedRun. -/
structure Backend where
  run : Project → Dict → SubmittedRun

/-- Modelled from the spec: the runner loader module is not under src/.
The spec describes a registry mapping canonical runner names to backend
instances with case-sensitive exact-match lookup; WANDB_RUNNERS is that
mapping, as iterated by the error message in _run. -/
structure Loader where
  WANDB_RUNNERS : List (String × Backend)

/-- Modelled from the spec: load_backend resolves a runner name against the
registry, yielding the backend or nothing when the name is unknown. -/
def Loader.load_backend (L : Loader) (name : String) : Option Backend :=
  assocGet L.WANDB_RUNNERS name

/-- External collaborators of one dispatch call.  fetch_and_validate_project
and _is_wandb_local_uri live in modules not under src/ and are modelled
from the spec as opaque functions: the resolver produces a project
descriptor or propagates a resolution failure unchanged; the local-address
recogniser classifies the project source. -/
structure Env where
  fetch_and_validate_project :
    String → Option String → Option Api → String → Option String →
      Option String → Option Dict → Except PyErr Project
  loader : Loader
  is_wandb_local : String → Bool

/-- Python truthiness of an optional string: None and the empty string are
falsy. -/
def truthyStr : Option String → Bool
  | none => false
  | some s => !(s == "")

/-- The configuration value stored for an optional docker-argument mapping
(None becomes the Python None value). -/
def optDictValue : Option StrDict → Value
  | none => Value.vNone
  | some d => Value.vDict d

/-- The configuration value stored for an optional string. -/
def optStrValue : Option String → Value
  | none => Value.vNone
  | some s => Value.vStr s

/-- Resolution of wandb_project / wandb_entity in _run: an explicit value
wins, otherwise api.settings(key) is consulted; when api is None that
attribute access raises AttributeError. -/
def resolveSetting (given : Option String) (key : String) (api : Option Api) :
    Except PyErr String :=
  match given with
  | some v => Except.ok v
  | none =>
      match api with
      | none => Except.error PyErr.attributeError
      | some a => Except.ok (a.settings key)

/-- Dispatcher events observable to the claims: the backend lookup and the
backend dispatch call. -/
inductive DEvent where
  | backendLookup
  | dispatch
deriving DecidableEq, Repr

/-- Result of one _run call: its event trace, the returned SubmittedRun or
raised error, the caller's runner_config mapping as it stands after the
call (Python mutates the caller's dict in place), and the configuration
actually passed to the backend's run method (present only when a dispatch
happened). -/
structure RunResult where
  events : List DEvent
  result : Except PyErr SubmittedRun
  configAfter : Option Dict
  configPassed : Option Dict
deriving Repr

/-- Embedding of _run: fetch and validate the project, fill project/entity
from api settings when unset, inject WANDB_PROJECT / WANDB_ENTITY into the
project's docker env, assign the reserved keys into the caller's
runner_config (item assignment on a None config raises TypeError, and the
DOCKER_IMAGE key is set only for a truthy docker_image), look the backend
up by runner name, and either dispatch or raise an ExecutionException
naming the runner and the registry's known names. -/
def _run (env : Env) (uri : String) (experiment_name : Option String)
    (wandb_project : Option String) (wandb_entity : Option String)
    (docker_image : Option String) (entry_point : Option String)
    (version : Option String) (parameters : Option Dict)
    (docker_args : Option StrDict) (runner_name : String)
    (runner_config : Option Dict) (storage_dir : Option String)
    (synchronous : Bool) (api : Option Api) : RunResult :=
  match env.fetch_and_validate_project uri experiment_name api runner_name
      version entry_point parameters with
  | Except.error e =>
      { events := [], result := Except.error e,
        configAfter := runner_config, configPassed := none }
  | Except.ok project0 =>
      match resolveSetting wandb_project "project" api with
      | Except.error e =>
          { events := [], result := Except.error e,
            configAfter := runner_config, configPassed := none }
      | Except.ok wp =>
          match resolveSetting wandb_entity "entity" api with
          | Except.error e =>
              { events := [], result := Except.error e,
                configAfter := runner_config, configPassed := none }
          | Except.ok we =>
              let project : Project :=
                { project0 with
                    docker_env :=
                      assocSet (assocSet project0.docker_env "WANDB_PROJECT" wp)
                        "WANDB_ENTITY" we }
              match runner_config with
              | none =>
                  { events := [], result := Except.error PyErr.typeError,
                    configAfter := none, configPassed := none }
              | some cfg0 =>
                  let cfg1 := assocSet cfg0 PROJECT_SYNCHRONOUS (Value.vBool synchronous)
                  let cfg2 := assocSet cfg1 PROJECT_DOCKER_ARGS (optDictValue docker_args)
                  let cfg3 := assocSet cfg2 PROJECT_STORAGE_DIR (optStrValue storage_dir)
                  let cfg4 :=
                    if truthyStr docker_image then
                      assocSet cfg3 "DOCKER_IMAGE" (optStrValue docker_image)
                    else cfg3
                  match env.loader.load_backend runner_name with
                  | some backend =>
                      { events := [DEvent.backendLookup, DEvent.dispatch],
                        result := Except.ok (backend.run project cfg4),
                        configAfter := some cfg4, configPassed := some cfg4 }
                  | none =>
                      { events := [DEvent.backendLookup],
                        result := Except.error (PyErr.executionException
                          ("Unavailable backend " ++ runner_name ++
                            ", available backends: " ++
                            String.intercalate ", "
                              (env.loader.WANDB_RUNNERS.map (fun p => p.1)))),
                        configAfter := some cfg4, configPassed := none }

/-- C2: when the registry resolves no backend for the requested runner
name (and the call reaches the lookup: the project resolves, the settings
resolve, and the configuration is a mapping), _run raises an
ExecutionException whose message names the requested runner and the full
list of runner names known to the registry, and no backend dispatch
occurs. -/
theorem C2_unknown_runner_fails_with_known_names (env : Env) (uri : String)
    (experiment_name wandb_project wandb_entity docker_image entry_point
      version : Option String)
    (parameters : Option Dict) (docker_args : Option StrDict)
    (runner_name : String) (cfg0 : Dict) (storage_dir : Option String)
    (synchronous : Bool) (api : Option Api) (proj : Project) (wp we : String)
    (hfetch : env.fetch_and_validate_project uri experiment_name api
      runner_name version entry_point parameters = Except.ok proj)
    (hwp : resolveSetting wandb_project "project" api = Except.ok wp)
    (hwe : resolveSetting wandb_entity "entity" api = Except.ok we)
    (hload : env.loader.load_backend runner_name = none) :
    (_run env uri experiment_name wandb_project wandb_entity docker_image
        entry_point version parameters docker_args runner_name (some cfg0)
        storage_dir synchronous api).result =
      Except.error (PyErr.executionException
        ("Unavailable backend " ++ runner_name ++ ", available backends: " ++
          String.intercalate ", " (env.loader.WANDB_RUNNERS.map (fun p => p.1)))) ∧
    DEvent.dispatch ∉
      (_run env uri experiment_name wandb_project wandb_entity docker_image
        entry_point version parameters docker_args runner_name (some cfg0)
        storage_dir synchronous api).events ∧
    (_run env uri experiment_name wandb_project wandb_entity docker_image
        entry_point version parameters docker_args runner_name (some cfg0)
        storage_dir synchronous api).configPassed = none := by
  simp [_run, hfetch, hwp, hwe, hload]

/-- Witness environment with an empty backend registry. -/
def envNoRunners : Env :=
  { fetch_and_validate_project := fun _ _ _ _ _ _ _ =>
      Except.ok { docker_env := [] },
    loader := { WANDB_RUNNERS := [] },
    is_wandb_local := fun _ => false }

/-- Witness for C2: with an empty registry, dispatching runner "local"
raises the execution error naming it and the (empty) known-name list. -/
theorem C2_witness :
    (_run envNoRunners "u" none (some "p") (some "e") none none none none
        none "local" (some []) none true none).result =
      Except.error (PyErr.executionException
        ("Unavailable backend " ++ "local" ++ ", available backends: " ++
          String.intercalate ", "
            (envNoRunners.loader.WANDB_RUNNERS.map (fun p => p.1)))) ∧
    DEvent.dispatch ∉
      (_run envNoRunners "u" none (some "p") (some "e") none none none none
        none "local" (some []) none true none).events ∧
    (_run envNoRunners "u" none (some "p") (some "e") none none none none
        none "local" (some []) none true none).configPassed = none :=
  C2_unknown_runner_fails_with_known_names envNoRunners "u" none (some "p")
    (some "e") none none none none none "local" [] none true none
    { docker_env := [] } "p" "e" rfl rfl rfl rfl

/-- Any configuration _run hands to a backend carries the dispatcher's
injected values at the reserved keys; shared workhorse for the claims
about reserved keys. -/
theorem _run_configPassed_reserved_keys (env : Env) (uri : String)
    (experiment_name wandb_project wandb_entity docker_image entry_point
      version : Option String)
    (parameters : Option Dict) (docker_args : Option StrDict)
    (runner_name : String) (runner_config : Option Dict)
    (storage_dir : Option String) (synchronous : Bool) (api : Option Api)
    (cfg' : Dict)
    (hpass : (_run env uri experiment_name wandb_project wandb_entity
        docker_image entry_point version parameters docker_args runner_name
        runner_config storage_dir synchronous api).configPassed = some cfg') :
    assocGet cfg' PROJECT_SYNCHRONOUS = some (Value.vBool synchronous) ∧
    assocGet cfg' PROJECT_DOCKER_ARGS = some (optDictValue docker_args) ∧
    assocGet cfg' PROJECT_STORAGE_DIR = some (optStrValue storage_dir) ∧
    (truthyStr docker_image = true →
      assocGet cfg' "DOCKER_IMAGE" = some (optStrValue docker_image)) := by
  cases hfetch : env.fetch_and_validate_project uri experiment_name api
      runner_name version entry_point parameters with
  | error e => simp [_run, hfetch] at hpass
  | ok project0 =>
    cases hwp : resolveSetting wandb_project "project" api with
    | error e => simp [_run, hfetch, hwp] at hpass
    | ok wp =>
      cases hwe : resolveSetting wandb_entity "entity" api with
      | error e => simp [_run, hfetch, hwp, hwe] at hpass
      | ok we =>
        cases runner_config with
        | none => simp [_run, hfetch, hwp, hwe] at hpass
        | some cfg0 =>
          cases hload : env.loader.load_backend runner_name with
          | none => simp [_run, hfetch, hwp, hwe, hload] at hpass
          | some backend =>
            cases himg : truthyStr docker_image with
            | true =>
              simp only [_run, hfetch, hwp, hwe, hload, himg, if_true] at hpass
              rw [Option.some.injEq] at hpass
              subst hpass
              refine ⟨?_, ?_, ?_, fun _ => ?_⟩
              · rw [assocGet_assocSet_ne _ "DOCKER_IMAGE" PROJECT_SYNCHRONOUS _
                    (by decide),
                  assocGet_assocSet_ne _ PROJECT_STORAGE_DIR PROJECT_SYNCHRONOUS _
                    (by decide),
                  assocGet_assocSet_ne _ PROJECT_DOCKER_ARGS PROJECT_SYNCHRONOUS _
                    (by decide),
                  assocGet_assocSet_self]
              · rw [assocGet_assocSet_ne _ "DOCKER_IMAGE" PROJECT_DOCKER_ARGS _
                    (by decide),
                  assocGet_assocSet_ne _ PROJECT_STORAGE_DIR PROJECT_DOCKER_ARGS _
                    (by decide),
                  assocGet_assocSet_self]
              · rw [assocGet_assocSet_ne _ "DOCKER_IMAGE" PROJECT_STORAGE_DIR _
                    (by decide),
                  assocGet_assocSet_self]
              · rw [assocGet_assocSet_self]
            | false =>
              simp only [_run, hfetch, hwp, hwe, hload, himg, Bool.false_eq_true,
                if_false] at hpass
              rw [Option.some.injEq] at hpass
              subst hpass
              refine ⟨?_, ?_, ?_, fun hh => ?_⟩
              · rw [assocGet_assocSet_ne _ PROJECT_STORAGE_DIR PROJECT_SYNCHRONOUS _
                    (by decide),
                  assocGet_assocSet_ne _ PROJECT_DOCKER_ARGS PROJECT_SYNCHRONOUS _
                    (by decide),
                  assocGet_assocSet_self]
              · rw [assocGet_assocSet_ne _ PROJECT_STORAGE_DIR PROJECT_DOCKER_ARGS _
                    (by decide),
                  assocGet_assocSet_self]
              · rw [assocGet_assocSet_self]
              · exact (Bool.false_ne_true hh).elim

/-- C3: whenever _run hands a run configuration to a backend, that
configuration carries the dispatcher's injected values at the reserved
synchronous-flag, docker-arguments and storage-directory keys, and at the
container-image key when a docker image was specified, regardless of any
conflicting values the caller supplied at those keys. -/
theorem C3_reserved_keys_reflect_injected_values (env : Env) (uri : String)
    (experiment_name wandb_project wandb_entity docker_image entry_point
      version : Option String)
    (parameters : Option Dict) (docker_args : Option StrDict)
    (runner_name : String) (runner_config : Option Dict)
    (storage_dir : Option String) (synchronous : Bool) (api : Option Api)
    (cfg' : Dict)
    (hpass : (_run env uri experiment_name wandb_project wandb_entity
        docker_image entry_point version parameters docker_args runner_name
        runner_config storage_dir synchronous api).configPassed = some cfg') :
    assocGet cfg' PROJECT_SYNCHRONOUS = some (Value.vBool synchronous) ∧
    assocGet cfg' PROJECT_DOCKER_ARGS = some (optDictValue docker_args) ∧
    assocGet cfg' PROJECT_STORAGE_DIR = some (optStrValue storage_dir) ∧
    (truthyStr docker_image = true →
      assocGet cfg' "DOCKER_IMAGE" = some (optStrValue docker_image)) :=
  _run_configPassed_reserved_keys env uri experiment_name wandb_project
    wandb_entity docker_image entry_point version parameters docker_args
    runner_name runner_config storage_dir synchronous api cfg' hpass

/-- A submitted run that succeeds, for concrete witnesses. -/
def srOk : SubmittedRun := { id := 0, waitResult := WaitOutcome.ret true }

/-- Witness environment with one registered runner named "local" whose
dispatch returns srOk; the project source is not recognised as local. -/
def envOneRunner : Env :=
  { fetch_and_validate_project := fun _ _ _ _ _ _ _ =>
      Except.ok { docker_env := [] },
    loader := { WANDB_RUNNERS := [("local", { run := fun _ _ => srOk })] },
    is_wandb_local := fun _ => false }

/-- The configuration the backend receives in the C3 witness call. -/
def cfgC3 : Dict :=
  [(PROJECT_SYNCHRONOUS, Value.vBool true), (PROJECT_DOCKER_ARGS, Value.vNone),
   (PROJECT_STORAGE_DIR, Value.vNone), ("DOCKER_IMAGE", Value.vStr "img")]

/-- Witness for C3: a caller-supplied configuration with a conflicting
value at the synchronous key is dispatched with the injected values at all
reserved keys, including the image key. -/
theorem C3_witness :
    assocGet cfgC3 PROJECT_SYNCHRONOUS = some (Value.vBool true) ∧
    assocGet cfgC3 PROJECT_DOCKER_ARGS = some (optDictValue none) ∧
    assocGet cfgC3 PROJECT_STORAGE_DIR = some (optStrValue none) ∧
    (truthyStr (some "img") = true →
      assocGet cfgC3 "DOCKER_IMAGE" = some (optStrValue (some "img"))) :=
  C3_reserved_keys_reflect_injected_values envOneRunner "u" none (some "p")
    (some "e") (some "img") none none none none "local"
    (some [(PROJECT_SYNCHRONOUS, Value.vStr "conflict")]) none true none
    cfgC3 rfl

/-- The pre-step of run on the docker arguments: when the project source is
recognised as a wandb-local address, docker_args["network"] = "host" is
assigned (on a None docker_args this item assignment raises TypeError);
otherwise the mapping is left as supplied. -/
def localDockerArgs (env : Env) (uri : String) (docker_args : Option StrDict) :
    Except PyErr (Option StrDict) :=
  if env.is_wandb_local uri then
    match docker_args with
    | none => Except.error PyErr.typeError
    | some d => Except.ok (some (assocSet d "network" "host"))
  else Except.ok docker_args

/-- Result of one top-level run call: the docker-argument mapping after the
local-address pre-step (or the error that step raised), the dispatcher
events, the wait-sequence trace (empty unless synchronous and dispatched),
the configuration passed to the backend, the caller's configuration
mapping after the call, and the value returned or error raised. -/
structure RunCallResult where
  dockerArgsAfter : Except PyErr (Option StrDict)
  events : List DEvent
  waitTrace : List WEvent
  configPassed : Option Dict
  configAfter : Option Dict
  final : Except PyErr SubmittedRun
deriving Repr

/-- Embedding of run: apply the wandb-local pre-step to docker_args,
delegate to _run with resource as the runner name and config as the runner
configuration, and, when synchronous, drive the submitted run through
_wait_for before returning it; the submitted run object itself is the
value returned to the caller in both modes. -/
def run (env : Env) (uri : String) (entry_point : Option String)
    (version : Option String) (parameters : Option Dict)
    (docker_args : Option StrDict) (experiment_name : Option String)
    (resource : String) (wandb_project : Option String)
    (wandb_entity : Option String) (docker_image : Option String)
    (config : Option Dict) (storage_dir : Option String)
    (synchronous : Bool) (api : Option Api) : RunCallResult :=
  match localDockerArgs env uri docker_args with
  | Except.error e =>
      { dockerArgsAfter := Except.error e, events := [], waitTrace := [],
        configPassed := none, configAfter := config, final := Except.error e }
  | Except.ok dargs =>
      let res := _run env uri experiment_name wandb_project wandb_entity
        docker_image entry_point version parameters dargs resource config
        storage_dir synchronous api
      match res.result with
      | Except.error e =>
          { dockerArgsAfter := Except.ok dargs, events := res.events,
            waitTrace := [], configPassed := res.configPassed,
            configAfter := res.configAfter, final := Except.error e }
      | Except.ok sr =>
          if synchronous then
            match _wait_for sr with
            | (tr, Except.ok _) =>
                { dockerArgsAfter := Except.ok dargs, events := res.events,
                  waitTrace := tr, configPassed := res.configPassed,
                  configAfter := res.configAfter, final := Except.ok sr }
            | (tr, Except.error e) =>
                { dockerArgsAfter := Except.ok dargs, events := res.events,
                  waitTrace := tr, configPassed := res.configPassed,
                  configAfter := res.configAfter, final := Except.error e }
          else
            { dockerArgsAfter := Except.ok dargs, events := res.events,
              waitTrace := [], configPassed := res.configPassed,
              configAfter := res.configAfter, final := Except.ok sr }

/-- The configuration handed to a backend by run is exactly the one handed
over by the underlying _run call (none when the pre-step raised). -/
theorem run_configPassed_eq (env : Env) (uri : String)
    (entry_point version : Option String) (parameters : Option Dict)
    (docker_args : Option StrDict) (experiment_name : Option String)
    (resource : String) (wandb_project wandb_entity docker_image : Option String)
    (config : Option Dict) (storage_dir : Option String) (synchronous : Bool)
    (api : Option Api) :
    (run env uri entry_point version parameters docker_args experiment_name
        resource wandb_project wandb_entity docker_image config storage_dir
        synchronous api).configPassed =
      match localDockerArgs env uri docker_args with
      | Except.error _ => none
      | Except.ok dargs =>
          (_run env uri experiment_name wandb_project wandb_entity
            docker_image entry_point version parameters dargs resource config
            storage_dir synchronous api).configPassed := by
  cases hp : localDockerArgs env uri docker_args with
  | error e => simp [run, hp]
  | ok dargs =>
    cases hr : (_run env uri experiment_name wandb_project wandb_entity
        docker_image entry_point version parameters dargs resource config
        storage_dir synchronous api).result with
    | error e => simp [run, hp, hr]
    | ok sr =>
      cases synchronous with
      | false => simp [run, hp, hr]
      | true =>
        rcases hw : _wait_for sr with ⟨tr, o⟩
        cases o with
        | ok u => simp [run, hp, hr, hw]
        | error e => simp [run, hp, hr, hw]

/-- C5: the submitted run produced by the backend dispatch is the value
run returns to the caller in asynchronous mode, and in synchronous mode as
well after the wait contract is driven (the wait trace of the call is the
_wait_for trace of exactly that run). -/
theorem C5_submitted_run_returned_to_caller (env : Env) (uri : String)
    (entry_point version : Option String) (parameters : Option Dict)
    (docker_args : Option StrDict) (experiment_name : Option String)
    (resource : String) (wandb_project wandb_entity docker_image : Option String)
    (config : Option Dict) (storage_dir : Option String) (synchronous : Bool)
    (api : Option Api) (dargs : Option StrDict) (sr : SubmittedRun)
    (hpre : localDockerArgs env uri docker_args = Except.ok dargs)
    (hres : (_run env uri experiment_name wandb_project wandb_entity
        docker_image entry_point version parameters dargs resource config
        storage_dir synchronous api).result = Except.ok sr) :
    (synchronous = false →
      (run env uri entry_point version parameters docker_args experiment_name
        resource wandb_project wandb_entity docker_image config storage_dir
        synchronous api).final = Except.ok sr) ∧
    (synchronous = true →
      (run env uri entry_point version parameters docker_args experiment_name
        resource wandb_project wandb_entity docker_image config storage_dir
        synchronous api).waitTrace = (_wait_for sr).1 ∧
      ((_wait_for sr).2 = Except.ok () →
        (run env uri entry_point version parameters docker_args experiment_name
          resource wandb_project wandb_entity docker_image config storage_dir
          synchronous api).final = Except.ok sr)) := by
  constructor
  · intro hs
    subst hs
    simp [run, hpre, hres]
  · intro hs
    subst hs
    rcases hw : _wait_for sr with ⟨tr, o⟩
    cases o with
    | ok u => exact ⟨by simp [run, hpre, hres, hw], fun _ => by simp [run, hpre, hres, hw]⟩
    | error e =>
      refine ⟨by simp [run, hpre, hres, hw], fun hok => ?_⟩
      simp at hok

/-- Witness for C5: a synchronous dispatch through the "local" runner
returns the successful submitted run to the caller. -/
theorem C5_witness :
    (run envOneRunner "u" none none none none none "local" (some "p")
      (some "e") none (some []) none true none).final = Except.ok srOk :=
  ((C5_submitted_run_returned_to_caller envOneRunner "u" none none none none
    none "local" (some "p") (some "e") none (some []) none true none none
    srOk rfl rfl).2 rfl).2 rfl

/-- The docker-argument mapping seen after a run call is exactly what the
wandb-local pre-step produced. -/
theorem run_dockerArgsAfter_eq (env : Env) (uri : String)
    (entry_point version : Option String) (parameters : Option Dict)
    (docker_args : Option StrDict) (experiment_name : Option String)
    (resource : String) (wandb_project wandb_entity docker_image : Option String)
    (config : Option Dict) (storage_dir : Option String) (synchronous : Bool)
    (api : Option Api) :
    (run env uri entry_point version parameters docker_args experiment_name
        resource wandb_project wandb_entity docker_image config storage_dir
        synchronous api).dockerArgsAfter =
      localDockerArgs env uri docker_args := by
  cases hp : localDockerArgs env uri docker_args with
  | error e => simp [run, hp]
  | ok dargs =>
    cases hr : (_run env uri experiment_name wandb_project wandb_entity
        docker_image entry_point version parameters dargs resource config
        storage_dir synchronous api).result with
    | error e => simp [run, hp, hr]
    | ok sr =>
      cases synchronous with
      | false => simp [run, hp, hr]
      | true =>
        rcases hw : _wait_for sr with ⟨tr, o⟩
        cases o with
        | ok u => simp [run, hp, hr, hw]
        | error e => simp [run, hp, hr, hw]

/-- C6: when the project source is recognised as a wandb-local address,
the docker-argument mapping has its "network" key forced to "host" before
_run is invoked, and any configuration later handed to a backend carries
that host-networked mapping at the reserved docker-arguments key. -/
theorem C6_local_uri_forces_host_network (env : Env) (uri : String)
    (d : StrDict) (entry_point version : Option String)
    (parameters : Option Dict) (experiment_name : Option String)
    (resource : String) (wandb_project wandb_entity docker_image : Option String)
    (config : Option Dict) (storage_dir : Option String) (synchronous : Bool)
    (api : Option Api)
    (hlocal : env.is_wandb_local uri = true) :
    (run env uri entry_point version parameters (some d) experiment_name
        resource wandb_project wandb_entity docker_image config storage_dir
        synchronous api).dockerArgsAfter =
      Except.ok (some (assocSet d "network" "host")) ∧
    assocGet (assocSet d "network" "host") "network" = some "host" ∧
    (∀ cfg',
      (run env uri entry_point version parameters (some d) experiment_name
        resource wandb_project wandb_entity docker_image config storage_dir
        synchronous api).configPassed = some cfg' →
      assocGet cfg' PROJECT_DOCKER_ARGS =
        some (Value.vDict (assocSet d "network" "host"))) := by
  have hpre : localDockerArgs env uri (some d) =
      Except.ok (some (assocSet d "network" "host")) := by
    simp [localDockerArgs, hlocal]
  refine ⟨?_, assocGet_assocSet_self d "network" "host", ?_⟩
  · rw [run_dockerArgsAfter_eq, hpre]
  · intro cfg' h
    rw [run_configPassed_eq, hpre] at h
    exact (_run_configPassed_reserved_keys env uri experiment_name
      wandb_project wandb_entity docker_image entry_point version parameters
      (some (assocSet d "network" "host")) resource config storage_dir
      synchronous api cfg' h).2.1

/-- Witness environment whose local-address recogniser accepts every
source, with one registered runner named "local". -/
def envLocalUri : Env :=
  { fetch_and_validate_project := fun _ _ _ _ _ _ _ =>
      Except.ok { docker_env := [] },
    loader := { WANDB_RUNNERS := [("local", { run := fun _ _ => srOk })] },
    is_wandb_local := fun _ => true }

/-- Witness for C6: a local-source run with an empty docker-argument
mapping forces network=host before dispatch, and the dispatched
configuration records the host-networked mapping. -/
theorem C6_witness :
    (run envLocalUri "local/path" none none none (some []) none "local"
        (some "p") (some "e") none (some []) none true none).dockerArgsAfter =
      Except.ok (some (assocSet [] "network" "host")) ∧
    assocGet (assocSet [] "network" "host") "network" = some "host" ∧
    (∀ cfg',
      (run envLocalUri "local/path" none none none (some []) none "local"
        (some "p") (some "e") none (some []) none true none).configPassed =
        some cfg' →
      assocGet cfg' PROJECT_DOCKER_ARGS =
        some (Value.vDict (assocSet [] "network" "host"))) :=
  C6_local_uri_forces_host_network envLocalUri "local/path" [] none none
    none none "local" (some "p") (some "e") none (some []) none true none rfl

/-- C10: a run call that leaves config at its default None raises TypeError
inside _run when the reserved synchronous key is assigned into the None
configuration (once the call reaches that assignment: the source is not
wandb-local and project and settings resolution succeed), before any
backend lookup and before any dispatch; the entry point supplies no empty
configuration on the caller's behalf. -/
theorem C10_none_config_raises_type_error (env : Env) (uri : String)
    (entry_point version : Option String) (parameters : Option Dict)
    (docker_args : Option StrDict) (experiment_name : Option String)
    (resource : String) (wandb_project wandb_entity docker_image : Option String)
    (storage_dir : Option String) (synchronous : Bool) (api : Option Api)
    (proj : Project) (wp we : String)
    (hlocal : env.is_wandb_local uri = false)
    (hfetch : env.fetch_and_validate_project uri experiment_name api resource
      version entry_point parameters = Except.ok proj)
    (hwp : resolveSetting wandb_project "project" api = Except.ok wp)
    (hwe : resolveSetting wandb_entity "entity" api = Except.ok we) :
    (run env uri entry_point version parameters docker_args experiment_name
        resource wandb_project wandb_entity docker_image none storage_dir
        synchronous api).final = Except.error PyErr.typeError ∧
    (run env uri entry_point version parameters docker_args experiment_name
        resource wandb_project wandb_entity docker_image none storage_dir
        synchronous api).events = [] ∧
    (run env uri entry_point version parameters docker_args experiment_name
        resource wandb_project wandb_entity docker_image none storage_dir
        synchronous api).configPassed = none := by
  have hpre : localDockerArgs env uri docker_args = Except.ok docker_args := by
    simp [localDockerArgs, hlocal]
  have hr : _run env uri experiment_name wandb_project wandb_entity
      docker_image entry_point version parameters docker_args resource none
      storage_dir synchronous api =
      { events := [], result := Except.error PyErr.typeError,
        configAfter := none, configPassed := none } := by
    simp [_run, hfetch, hwp, hwe]
  refine ⟨?_, ?_, ?_⟩ <;> simp [run, hpre, hr]

/-- Witness for C10: with config left as None, the call returns TypeError
and records neither a backend lookup nor a dispatch. -/
theorem C10_witness :
    (run envNoRunners "u" none none none none none "local" (some "p")
        (some "e") none none none true none).final =
      Except.error PyErr.typeError ∧
    (run envNoRunners "u" none none none none none "local" (some "p")
        (some "e") none none none true none).events = [] ∧
    (run envNoRunners "u" none none none none none "local" (some "p")
        (some "e") none none none true none).configPassed = none :=
  C10_none_config_raises_type_error envNoRunners "u" none none none none
    none "local" (some "p") (some "e") none none true none
    { docker_env := [] } "p" "e" rfl rfl rfl rfl

/-- Lookups at the three reserved keys after the three reserved
assignments of _run. -/
theorem chain3_get (cfg0 : Dict) (sy : Bool) (da : Option StrDict)
    (sd : Option String) :
    assocGet (assocSet (assocSet (assocSet cfg0 PROJECT_SYNCHRONOUS
        (Value.vBool sy)) PROJECT_DOCKER_ARGS (optDictValue da))
        PROJECT_STORAGE_DIR (optStrValue sd)) PROJECT_SYNCHRONOUS =
      some (Value.vBool sy) ∧
    assocGet (assocSet (assocSet (assocSet cfg0 PROJECT_SYNCHRONOUS
        (Value.vBool sy)) PROJECT_DOCKER_ARGS (optDictValue da))
        PROJECT_STORAGE_DIR (optStrValue sd)) PROJECT_DOCKER_ARGS =
      some (optDictValue da) ∧
    assocGet (assocSet (assocSet (assocSet cfg0 PROJECT_SYNCHRONOUS
        (Value.vBool sy)) PROJECT_DOCKER_ARGS (optDictValue da))
        PROJECT_STORAGE_DIR (optStrValue sd)) PROJECT_STORAGE_DIR =
      some (optStrValue sd) := by
  refine ⟨?_, ?_, ?_⟩
  · rw [assocGet_assocSet_ne _ PROJECT_STORAGE_DIR PROJECT_SYNCHRONOUS _
        (by decide),
      assocGet_assocSet_ne _ PROJECT_DOCKER_ARGS PROJECT_SYNCHRONOUS _
        (by decide),
      assocGet_assocSet_self]
  · rw [assocGet_assocSet_ne _ PROJECT_STORAGE_DIR PROJECT_DOCKER_ARGS _
        (by decide),
      assocGet_assocSet_self]
  · rw [assocGet_assocSet_self]

/-- Lookups at the three reserved keys after the additional image-key
assignment of _run. -/
theorem chain4_get (cfg0 : Dict) (sy : Bool) (da : Option StrDict)
    (sd : Option String) (vi : Value) :
    assocGet (assocSet (assocSet (assocSet (assocSet cfg0 PROJECT_SYNCHRONOUS
        (Value.vBool sy)) PROJECT_DOCKER_ARGS (optDictValue da))
        PROJECT_STORAGE_DIR (optStrValue sd)) "DOCKER_IMAGE" vi)
        PROJECT_SYNCHRONOUS = some (Value.vBool sy) ∧
    assocGet (assocSet (assocSet (assocSet (assocSet cfg0 PROJECT_SYNCHRONOUS
        (Value.vBool sy)) PROJECT_DOCKER_ARGS (optDictValue da))
        PROJECT_STORAGE_DIR (optStrValue sd)) "DOCKER_IMAGE" vi)
        PROJECT_DOCKER_ARGS = some (optDictValue da) ∧
    assocGet (assocSet (assocSet (assocSet (assocSet cfg0 PROJECT_SYNCHRONOUS
        (Value.vBool sy)) PROJECT_DOCKER_ARGS (optDictValue da))
        PROJECT_STORAGE_DIR (optStrValue sd)) "DOCKER_IMAGE" vi)
        PROJECT_STORAGE_DIR = some (optStrValue sd) := by
  refine ⟨?_, ?_, ?_⟩
  · rw [assocGet_assocSet_ne _ "DOCKER_IMAGE" PROJECT_SYNCHRONOUS _
        (by decide)]
    exact (chain3_get cfg0 sy da sd).1
  · rw [assocGet_assocSet_ne _ "DOCKER_IMAGE" PROJECT_DOCKER_ARGS _
        (by decide)]
    exact (chain3_get cfg0 sy da sd).2.1
  · rw [assocGet_assocSet_ne _ "DOCKER_IMAGE" PROJECT_STORAGE_DIR _
        (by decide)]
    exact (chain3_get cfg0 sy da sd).2.2

/-- C8 counterexample: the caller's configuration mapping is not left
unchanged by the dispatch: after a concrete _run call the caller-visible
mapping differs from what the caller supplied, because the reserved keys
were assigned into it in place rather than into a copy. -/
theorem C8_counterexample :
    (_run envOneRunner "u" none (some "p") (some "e") none none none none
        none "local" (some [("opt", Value.vStr "v")]) none true
        none).configAfter ≠ some [("opt", Value.vStr "v")] := by
  decide

/-- C8 (amended): the Run Configuration is not a copy: the reserved keys
are assigned directly into the caller-supplied mapping, so after the
dispatch the caller's own mapping carries the injected reserved values —
in particular it is changed whenever it did not already hold the injected
synchronous value. -/
theorem C8_caller_config_gains_reserved_keys (env : Env) (uri : String)
    (experiment_name wandb_project wandb_entity docker_image entry_point
      version : Option String)
    (parameters : Option Dict) (docker_args : Option StrDict)
    (runner_name : String) (cfg0 : Dict) (storage_dir : Option String)
    (synchronous : Bool) (api : Option Api) (proj : Project) (wp we : String)
    (hfetch : env.fetch_and_validate_project uri experiment_name api
      runner_name version entry_point parameters = Except.ok proj)
    (hwp : resolveSetting wandb_project "project" api = Except.ok wp)
    (hwe : resolveSetting wandb_entity "entity" api = Except.ok we) :
    ∀ cfg',
      (_run env uri experiment_name wandb_project wandb_entity docker_image
        entry_point version parameters docker_args runner_name (some cfg0)
        storage_dir synchronous api).configAfter = some cfg' →
      assocGet cfg' PROJECT_SYNCHRONOUS = some (Value.vBool synchronous) ∧
      assocGet cfg' PROJECT_DOCKER_ARGS = some (optDictValue docker_args) ∧
      assocGet cfg' PROJECT_STORAGE_DIR = some (optStrValue storage_dir) ∧
      (assocGet cfg0 PROJECT_SYNCHRONOUS ≠ some (Value.vBool synchronous) →
        cfg' ≠ cfg0) := by
  intro cfg' h
  cases himg : truthyStr docker_image with
  | true =>
    cases hload : env.loader.load_backend runner_name with
    | some backend =>
      simp only [_run, hfetch, hwp, hwe, hload, himg, if_true] at h
      rw [Option.some.injEq] at h
      subst h
      refine ⟨(chain4_get cfg0 synchronous docker_args storage_dir _).1,
        (chain4_get cfg0 synchronous docker_args storage_dir _).2.1,
        (chain4_get cfg0 synchronous docker_args storage_dir _).2.2,
        fun hne heq => ?_⟩
      apply hne
      rw [← heq]
      exact (chain4_get cfg0 synchronous docker_args storage_dir _).1
    | none =>
      simp only [_run, hfetch, hwp, hwe, hload, himg, if_true] at h
      rw [Option.some.injEq] at h
      subst h
      refine ⟨(chain4_get cfg0 synchronous docker_args storage_dir _).1,
        (chain4_get cfg0 synchronous docker_args storage_dir _).2.1,
        (chain4_get cfg0 synchronous docker_args storage_dir _).2.2,
        fun hne heq => ?_⟩
      apply hne
      rw [← heq]
      exact (chain4_get cfg0 synchronous docker_args storage_dir _).1
  | false =>
    cases hload : env.loader.load_backend runner_name with
    | some backend =>
      simp only [_run, hfetch, hwp, hwe, hload, himg, Bool.false_eq_true,
        if_false] at h
      rw [Option.some.injEq] at h
      subst h
      refine ⟨(chain3_get cfg0 synchronous docker_args storage_dir).1,
        (chain3_get cfg0 synchronous docker_args storage_dir).2.1,
        (chain3_get cfg0 synchronous docker_args storage_dir).2.2,
        fun hne heq => ?_⟩
      apply hne
      rw [← heq]
      exact (chain3_get cfg0 synchronous docker_args storage_dir).1
    | none =>
      simp only [_run, hfetch, hwp, hwe, hload, himg, Bool.false_eq_true,
        if_false] at h
      rw [Option.some.injEq] at h
      subst h
      refine ⟨(chain3_get cfg0 synchronous docker_args storage_dir).1,
        (chain3_get cfg0 synchronous docker_args storage_dir).2.1,
        (chain3_get cfg0 synchronous docker_args storage_dir).2.2,
        fun hne heq => ?_⟩
      apply hne
      rw [← heq]
      exact (chain3_get cfg0 synchronous docker_args storage_dir).1

/-- The caller-visible configuration after the C8 witness call. -/
def cfgC8 : Dict :=
  [("opt", Value.vStr "v"), (PROJECT_SYNCHRONOUS, Value.vBool true),
   (PROJECT_DOCKER_ARGS, Value.vNone), (PROJECT_STORAGE_DIR, Value.vNone)]

/-- Witness for the amended C8: the caller's one-entry configuration comes
back carrying the three reserved keys, hence differs from what was
supplied. -/
theorem C8_witness :
    assocGet cfgC8 PROJECT_SYNCHRONOUS = some (Value.vBool true) ∧
    assocGet cfgC8 PROJECT_DOCKER_ARGS = some (optDictValue none) ∧
    assocGet cfgC8 PROJECT_STORAGE_DIR = some (optStrValue none) ∧
    cfgC8 ≠ [("opt", Value.vStr "v")] := by
  have h := C8_caller_config_gains_reserved_keys envOneRunner "u" none
    (some "p") (some "e") none none none none none "local"
    [("opt", Value.vStr "v")] none true none { docker_env := [] } "p" "e"
    rfl rfl rfl cfgC8 rfl
  exact ⟨h.1, h.2.1, h.2.2.1, h.2.2.2 (by decide)⟩

/-- Outcome of run_agent: either the process exits with a status code
before any agent is constructed, or an agent bound to the parsed entity
and project (and the optional queue-name list) is constructed and its loop
entered.  The LaunchAgent class lives in the agent module, which is not
under src/, so entering its loop is modelled from the spec as the opaque
terminal outcome. -/
inductive AgentOutcome where
  | exitProcess (code : Nat)
  | agentLoop (entity : String) (project : String)
      (queues : Option (List String))
deriving DecidableEq, Repr

/-- Worker for pySplit: Python str.split with an explicit separator keeps
empty fields and yields one field per separator occurrence plus one. -/
def splitCharAux (sep : Char) : List Char → List Char → List String
  | [], acc => [String.mk acc.reverse]
  | c :: rest, acc =>
      if c == sep then String.mk acc.reverse :: splitCharAux sep rest []
      else splitCharAux sep rest (c :: acc)

/-- Python str.split(sep) for a one-character separator. -/
def pySplit (s : String) (sep : Char) : List String :=
  splitCharAux sep s.toList []

/-- Embedding of run_agent: the spec must be a single "entity/project"
entry (an empty list, a longer list, or an entry not splitting into
exactly two fields is reported and the process exits with status 1 before
any agent exists); otherwise the agent is constructed on the parsed entity
and project and its loop entered. -/
def run_agent (spec : List String) (queues : Option (List String)) :
    AgentOutcome :=
  if spec.length ≠ 1 ∨ (pySplit (spec.headD "") '/').length ≠ 2 then
    AgentOutcome.exitProcess 1
  else
    AgentOutcome.agentLoop ((pySplit (spec.headD "") '/').headD "")
      ((pySplit (spec.headD "") '/').getD 1 "") queues

/-- C7: a spec that is empty, has more than one entry, or whose single
entry does not split into exactly one entity/project pair makes run_agent
exit the process with status 1 before any agent is constructed; a
well-formed single entry constructs the agent on that entity and project
and enters its loop. -/
theorem C7_agent_spec_validation :
    (∀ (spec : List String) (queues : Option (List String)),
      spec.length ≠ 1 ∨ (pySplit (spec.headD "") '/').length ≠ 2 →
        run_agent spec queues = AgentOutcome.exitProcess 1) ∧
    (∀ (s e p : String) (queues : Option (List String)),
      pySplit s '/' = [e, p] →
        run_agent [s] queues = AgentOutcome.agentLoop e p queues) := by
  constructor
  · intro spec queues h
    unfold run_agent
    exact if_pos h
  · intro s e p queues h
    unfold run_agent
    rw [if_neg (by simp [h])]
    simp [h]

/-- Witness for C7: the empty spec, a slashless entry and a two-slash
entry all exit with status 1; a well-formed entry enters the loop on its
entity and project. -/
theorem C7_witness :
    run_agent [] none = AgentOutcome.exitProcess 1 ∧
    run_agent ["bad-spec"] none = AgentOutcome.exitProcess 1 ∧
    run_agent ["a/b/c"] none = AgentOutcome.exitProcess 1 ∧
    run_agent ["ent/proj"] (some ["q"]) =
      AgentOutcome.agentLoop "ent" "proj" (some ["q"]) :=
  ⟨C7_agent_spec_validation.1 [] none (Or.inl (by decide)),
   C7_agent_spec_validation.1 ["bad-spec"] none (Or.inr (by decide)),
   C7_agent_spec_validation.1 ["a/b/c"] none (Or.inr (by decide)),
   C7_agent_spec_validation.2 "ent/proj" "ent" "proj" (some ["q"])
     (by decide)⟩

/-- The queue-push surface of the api object consumed by push_to_queue:
pushing a run spec onto a named queue yields a result value or raises an
exception carrying a message. -/
structure PushApi where
  push_to_run_queue : String → Value → Except String Value

/-- Embedding of push_to_queue: call api.push_to_run_queue; any raised
exception is caught, printed ("Exception:" plus the message) and turned
into a None result; a successful result is returned unchanged.  Returns
the printed lines together with the returned value. -/
def push_to_queue (api : PushApi) (queue : String) (run_spec : Value) :
    List String × Option Value :=
  match api.push_to_run_queue queue run_spec with
  | Except.ok res => ([], some res)
  | Except.error e => (["Exception: " ++ e], none)

/-- C9: a failing queue push is caught and reported and push_to_queue
returns None instead of propagating the exception; a successful push
returns the push result unchanged. -/
theorem C9_push_errors_contained (api : PushApi) (queue : String)
    (run_spec : Value) :
    (∀ e, api.push_to_run_queue queue run_spec = Except.error e →
      push_to_queue api queue run_spec = (["Exception: " ++ e], none)) ∧
    (∀ r, api.push_to_run_queue queue run_spec = Except.ok r →
      push_to_queue api queue run_spec = ([], some r)) := by
  constructor
  · intro e h
    simp [push_to_queue, h]
  · intro r h
    simp [push_to_queue, h]

/-- A push api whose queue push always raises. -/
def pushFailApi : PushApi :=
  { push_to_run_queue := fun _ _ => Except.error "boom" }

/-- A push api whose queue push always succeeds with an acknowledgement. -/
def pushOkApi : PushApi :=
  { push_to_run_queue := fun _ _ => Except.ok (Value.vStr "ack") }

/-- Witness for C9 at a failing and a succeeding push. -/
theorem C9_witness :
    push_to_queue pushFailApi "q" Value.vNone =
      (["Exception: " ++ "boom"], none) ∧
    push_to_queue pushOkApi "q" Value.vNone = ([], some (Value.vStr "ack")) :=
  ⟨(C9_push_errors_contained pushFailApi "q" Value.vNone).1 "boom" rfl,
   (C9_push_errors_contained pushOkApi "q" Value.vNone).2
     (Value.vStr "ack") rfl⟩

end Launch
